import Mathlib

/-!
Verification of the PSN-emulator serverless APIs: an identity/token service
(`IDPService`) and a player-account CRUD service (`PlayerAccountService`),
each fronted by a Lambda-style request router. The Python sources are
shallowly embedded: process-wide dicts become insertion-ordered association
lists (`Store`), exceptions become `Except` results carrying a typed error
taxonomy, clocks and random token generators become explicit parameters,
and the JSON (de)serialisation library is an abstract parameter of the
router. All definitions follow the Python sources line by line.
-/

set_option linter.unusedVariables false

namespace PSN

/-! ### Insertion-ordered string-keyed maps (the model of a Python `dict`) -/

/-- A Python `dict[str, α]`: an insertion-ordered association list.
Keys are unique in every state the services construct, because `insert`
replaces in place (Python `d[k] = v`) and `erase` models `del d[k]`. -/
abbrev Store (α : Type) := List (String × α)

namespace Store

/-- Model of `d.get(k)`. -/
def lookup (k : String) : Store α → Option α
  | [] => none
  | (k', v) :: rest => if k' = k then some v else lookup k rest

/-- Model of `d[k] = v`: replace the value in place if the key is present,
otherwise append at the end (Python dicts preserve insertion order). -/
def insert (k : String) (v : α) : Store α → Store α
  | [] => [(k, v)]
  | (k', v') :: rest => if k' = k then (k', v) :: rest else (k', v') :: insert k v rest

/-- Model of `del d[k]` (on dict states the key occurs at most once). -/
def erase (k : String) : Store α → Store α :=
  fun l => l.filter (fun p => p.1 ≠ k)

/-- Model of `k in d`. -/
def containsKey (k : String) (l : Store α) : Bool :=
  (lookup k l).isSome

/-- Model of `d.values()` (in insertion order). -/
def values (l : Store α) : List α :=
  l.map Prod.snd

end Store

/-! ### Error taxonomy (`libs/common/exceptions.py`) -/

/-- Kinds of `PSNEmulatorException` subclasses. -/
inductive ExcKind where
  | validation
  | authentication
  | notFound
  | conflict
deriving DecidableEq, Repr

/-- Status code fixed by each exception subclass constructor. -/
def ExcKind.statusCode : ExcKind → Nat
  | .validation => 400
  | .authentication => 401
  | .notFound => 404
  | .conflict => 409

/-- A raised `PSNEmulatorException`: the subclass determines `status_code`,
the constructor argument is `message`. -/
structure PSNExc where
  kind : ExcKind
  message : String
deriving DecidableEq, Repr

def PSNExc.status_code (e : PSNExc) : Nat :=
  e.kind.statusCode

/-! ### IDP data model (`src/lambdas/idp_api/models.py`, `service.py`) -/

/-- One record of `IDPService._users`. Timestamps are abstract ticks. -/
structure UserRecord where
  user_id : String
  username : String
  password : String
  email : String
  is_active : Bool
  created_at : Nat
deriving DecidableEq, Repr

/-- One record of `IDPService._tokens` (the source stores `expires_at` as a
decimal string and converts back with `int`; we keep the number). -/
structure TokenData where
  user_id : String
  username : String
  type : String
  expires_at : Nat
deriving DecidableEq, Repr

/-- Model of `TokenResponse` pydantic model. -/
structure TokenResponse where
  access_token : String
  token_type : String := "Bearer"
  expires_in : Nat := 3600
  refresh_token : Option String := none
  issued_at : Nat
deriving DecidableEq, Repr

/-- Model of `UserInfo` pydantic model: the projection returned by `get_user_info`.
By construction it has no password field. -/
structure UserInfo where
  user_id : String
  username : String
  email : String
  is_active : Bool
  created_at : Nat
deriving DecidableEq, Repr

/-- The two process-wide dicts of `IDPService`. -/
structure IDPState where
  users : Store UserRecord
  tokens : Store TokenData
deriving Repr

/-- The seeded `IDPService._users` dict. -/
def initialUsers : Store UserRecord :=
  [("testuser",
    { user_id := "usr_001"
      username := "testuser"
      password := "password123"
      email := "testuser@example.com"
      is_active := true
      created_at := 0 })]

namespace IDPService

/-- Model of `IDPService.authenticate`. The two freshly generated random tokens and
the current time are explicit parameters (`secrets.token_urlsafe(32)` and
`time.time()` in the source). -/
def authenticate (st : IDPState) (username password : String)
    (accessTok refreshTok : String) (now : Nat) :
    Except PSNExc (TokenResponse × IDPState) :=
  match st.users.lookup username with
  | none => .error ⟨.authentication, "Invalid username or password"⟩
  | some user =>
    if user.password = password then
      if user.is_active then
        let tokens1 := st.tokens.insert accessTok
          ⟨user.user_id, username, "access", now + 3600⟩
        let tokens2 := tokens1.insert refreshTok
          ⟨user.user_id, username, "refresh", now + 86400⟩
        .ok ({ access_token := accessTok
               refresh_token := some refreshTok
               expires_in := 3600
               issued_at := now },
             { users := st.users, tokens := tokens2 })
      else .error ⟨.authentication, "Account is not active"⟩
    else .error ⟨.authentication, "Invalid username or password"⟩

/-- Model of `IDPService.get_user_info`. -/
def get_user_info (st : IDPState) (token : String) (now : Nat) :
    Except PSNExc UserInfo :=
  match st.tokens.lookup token with
  | none => .error ⟨.authentication, "Invalid or expired token"⟩
  | some td =>
    if td.type = "access" then
      if td.expires_at < now then .error ⟨.authentication, "Token has expired"⟩
      else
        match st.users.lookup td.username with
        | none => .error ⟨.notFound, "User not found"⟩
        | some u => .ok ⟨u.user_id, u.username, u.email, u.is_active, u.created_at⟩
    else .error ⟨.authentication, "Invalid token type"⟩

/-- Model of `IDPService.refresh_token`. The freshly generated access token and the
current time are explicit parameters. -/
def refresh_token (st : IDPState) (refreshTok : String)
    (newAccessTok : String) (now : Nat) :
    Except PSNExc (TokenResponse × IDPState) :=
  match st.tokens.lookup refreshTok with
  | none => .error ⟨.authentication, "Invalid refresh token"⟩
  | some td =>
    if td.type = "refresh" then
      if td.expires_at < now then
        .error ⟨.authentication, "Refresh token has expired"⟩
      else
        .ok ({ access_token := newAccessTok
               refresh_token := none
               expires_in := 3600
               issued_at := now },
             { users := st.users
               tokens := st.tokens.insert newAccessTok
                 ⟨td.user_id, td.username, "access", now + 3600⟩ })
    else .error ⟨.authentication, "Invalid token type"⟩

end IDPService

/-! ### Player data model (`src/services/player_account_api/models.py`) -/

/-- Model of `PlayerStatus` enumeration. -/
inductive PlayerStatus where
  | active
  | suspended
  | banned
  | inactive
deriving DecidableEq, Repr

/-- String value of each `PlayerStatus` member. -/
def PlayerStatus.toStr : PlayerStatus → String
  | .active => "active"
  | .suspended => "suspended"
  | .banned => "banned"
  | .inactive => "inactive"

/-- Model of `PlayerAccount` pydantic model (timestamps are abstract ticks). -/
structure PlayerAccount where
  player_id : String
  username : String
  email : String
  display_name : String
  status : PlayerStatus
  level : Nat
  experience_points : Nat
  created_at : Nat
  updated_at : Nat
deriving DecidableEq, Repr

/-- Model of `PlayerStats` pydantic model. The source's `win_rate` float is only ever
its default `0.0` (nothing in the repository updates stats), modelled as a
natural number that stays `0`. -/
structure PlayerStats where
  player_id : String
  total_games : Nat
  wins : Nat
  losses : Nat
  win_rate : Nat
  total_playtime_hours : Nat
deriving DecidableEq, Repr

/-- Model of `UpdatePlayerRequest` pydantic model: each optional field is `none`
when absent (or JSON `null`). -/
structure UpdatePlayerRequest where
  display_name : Option String := none
  email : Option String := none
  status : Option PlayerStatus := none
deriving DecidableEq, Repr

/-- The two process-wide dicts of `PlayerAccountService`. -/
structure PlayerState where
  players : Store PlayerAccount
  stats : Store PlayerStats
deriving Repr

/-- Both stores start empty. -/
def emptyPlayerState : PlayerState :=
  { players := [], stats := [] }

def usernameExistsMsg (u : String) : String :=
  "Username \x27" ++ u ++ "\x27 already exists"

def emailExistsMsg (e : String) : String :=
  "Email \x27" ++ e ++ "\x27 already exists"

def playerNotFoundMsg (pid : String) : String :=
  "Player with ID \x27" ++ pid ++ "\x27 not found"

def statsNotFoundMsg (pid : String) : String :=
  "Stats for player \x27" ++ pid ++ "\x27 not found"

namespace PlayerAccountService

/-- The duplicate scan of `create_player`: walk `self._players.values()` in
insertion order and, at each player, raise on a username match before an
email match (`service.py` lines 45-49). -/
def findCreateConflict (u e : String) : List (String × PlayerAccount) → Option PSNExc
  | [] => none
  | (_, p) :: rest =>
    if p.username = u then some ⟨.conflict, usernameExistsMsg u⟩
    else if p.email = e then some ⟨.conflict, emailExistsMsg e⟩
    else findCreateConflict u e rest

/-- Model of `PlayerAccountService.create_player`. The random hex suffix from
`secrets.token_hex(8)` and the current time are explicit parameters.
`display_name or username` maps an absent or empty display name to the
username (Python truthiness). -/
def create_player (st : PlayerState) (username email : String)
    (display_name : Option String) (genHex : String) (now : Nat) :
    Except PSNExc (PlayerAccount × PlayerState) :=
  match findCreateConflict username email st.players with
  | some e => .error e
  | none =>
    let pid := "plr_" ++ genHex
    let dn := match display_name with
      | some d => if d = "" then username else d
      | none => username
    let player : PlayerAccount :=
      { player_id := pid
        username := username
        email := email
        display_name := dn
        status := .active
        level := 1
        experience_points := 0
        created_at := now
        updated_at := now }
    let stats : PlayerStats :=
      { player_id := pid
        total_games := 0
        wins := 0
        losses := 0
        win_rate := 0
        total_playtime_hours := 0 }
    .ok (player, { players := st.players.insert pid player
                   stats := st.stats.insert pid stats })

/-- Model of `PlayerAccountService.get_player`. -/
def get_player (st : PlayerState) (pid : String) : Except PSNExc PlayerAccount :=
  match st.players.lookup pid with
  | none => .error ⟨.notFound, playerNotFoundMsg pid⟩
  | some p => .ok p

/-- The email-conflict guard of `update_player`: Python tests the patch
email for truthiness (`if update_request.email:`), so an empty string skips
the scan, and raises on the first other player holding that email. -/
def updateEmailConflict (players : Store PlayerAccount) (pid : String) :
    Option String → Option PSNExc
  | none => none
  | some e =>
    if e ≠ "" ∧ players.any (fun q => q.1 != pid && q.2.email == e) then
      some ⟨.conflict, emailExistsMsg e⟩
    else none

/-- Model of `PlayerAccountService.update_player`. Each patch field is applied
exactly when it `is not None`; `updated_at` is set to the current time. -/
def update_player (st : PlayerState) (pid : String)
    (req : UpdatePlayerRequest) (now : Nat) :
    Except PSNExc (PlayerAccount × PlayerState) :=
  match st.players.lookup pid with
  | none => .error ⟨.notFound, playerNotFoundMsg pid⟩
  | some player =>
    match updateEmailConflict st.players pid req.email with
    | some err => .error err
    | none =>
      let p1 := match req.display_name with
        | some d => { player with display_name := d }
        | none => player
      let p2 := match req.email with
        | some e => { p1 with email := e }
        | none => p1
      let p3 := match req.status with
        | some s => { p2 with status := s }
        | none => p2
      let p4 := { p3 with updated_at := now }
      .ok (p4, { players := st.players.insert pid p4, stats := st.stats })

/-- Model of `PlayerAccountService.delete_player`: `del self._players[player_id]`,
then `del self._stats[player_id]` guarded by `if player_id in self._stats`. -/
def delete_player (st : PlayerState) (pid : String) : Except PSNExc PlayerState :=
  match st.players.lookup pid with
  | none => .error ⟨.notFound, playerNotFoundMsg pid⟩
  | some _ =>
    .ok { players := st.players.erase pid
          stats := if (st.stats.lookup pid).isSome then st.stats.erase pid
                   else st.stats }

/-- Model of `PlayerAccountService.list_players`. -/
def list_players (st : PlayerState) : List PlayerAccount :=
  st.players.values

/-- Model of `PlayerAccountService.get_player_stats`: verifies the player exists
first, then resolves the stats record. -/
def get_player_stats (st : PlayerState) (pid : String) : Except PSNExc PlayerStats :=
  match st.players.lookup pid with
  | none => .error ⟨.notFound, playerNotFoundMsg pid⟩
  | some _ =>
    match st.stats.lookup pid with
    | none => .error ⟨.notFound, statsNotFoundMsg pid⟩
    | some s => .ok s

end PlayerAccountService

/-! ### Auxiliary notions used by the theorems -/

/-- Rewrite every stored password through `f`, leaving all other user fields
alone; used to state that `get_user_info` never depends on passwords. -/
def mapPasswords (f : String → String) (st : IDPState) : IDPState :=
  { st with users := st.users.map (fun kv => (kv.1, { kv.2 with password := f kv.1 })) }

/-- One inbound call to `PlayerAccountService` (arguments plus the random
hex suffix and clock reading consumed by the call, when it uses them). -/
inductive PlayerOp where
  | createOp (username email : String) (display_name : Option String)
      (genHex : String) (now : Nat)
  | updateOp (pid : String) (req : UpdatePlayerRequest) (now : Nat)
  | deleteOp (pid : String)
  | getOp (pid : String)
  | listOp
  | statsOp (pid : String)

/-- Effect of one service call on the process-wide stores: a raised
exception leaves both dicts as they were (every raise in the source happens
before the first mutation), and the read-only calls never touch them. -/
def PlayerState.step (st : PlayerState) : PlayerOp → PlayerState
  | .createOp u e d g now =>
    match PlayerAccountService.create_player st u e d g now with
    | .ok (_, st') => st'
    | .error _ => st
  | .updateOp pid req now =>
    match PlayerAccountService.update_player st pid req now with
    | .ok (_, st') => st'
    | .error _ => st
  | .deleteOp pid =>
    match PlayerAccountService.delete_player st pid with
    | .ok st' => st'
    | .error _ => st
  | .getOp _ => st
  | .listOp => st
  | .statsOp _ => st

/-- Run a sequence of service calls. -/
def PlayerState.run (st : PlayerState) : List PlayerOp → PlayerState
  | [] => st
  | op :: ops => (st.step op).run ops

/-- The stats-atomicity invariant: a `player_id` keys the players dict
exactly when it keys the stats dict. -/
def StatsInv (st : PlayerState) : Prop :=
  ∀ pid, (st.players.lookup pid).isSome ↔ (st.stats.lookup pid).isSome

/-! ### HTTP events, responses and JSON (`services/*/src/handler.py`)

The `json` library is abstracted: `json.loads` is any parameter
`parse : String → Option Json` (`none` models a raised `JSONDecodeError`),
and serialised bodies are kept structured in `RespBody` rather than printed
to strings, since the routers never inspect rendered text. The pydantic
`EmailStr` validator is likewise an abstract predicate parameter. -/

/-- A parsed JSON value, as far as the routers inspect one. -/
inductive Json where
  | null
  | bool (b : Bool)
  | num (n : Int)
  | str (s : String)
  | arr (elems : List Json)
  | obj (fields : List (String × Json))

/-- Python truthiness of a JSON value (`if body.get("refresh_token"):`). -/
def Json.truthy : Json → Bool
  | .null => false
  | .bool b => b
  | .num n => n != 0
  | .str s => !(s == "")
  | .arr xs => !xs.isEmpty
  | .obj fs => !fs.isEmpty

/-- An inbound API-Gateway event; `none` fields model absent keys (and, for
`body`, an explicit JSON `null`, which `event.get` conflates with absence). -/
structure Event where
  httpMethod : Option String := none
  path : Option String := none
  headers : Option (Store String) := none
  body : Option String := none
  pathParameters : Option (Store String) := none

/-- A raised Python exception as seen by `lambda_handler`'s `try` block:
either a `PSNEmulatorException` from the taxonomy or any other exception
(JSONDecodeError, TypeError, AttributeError, ...) carrying a message. -/
inductive PyExc where
  | psn (e : PSNExc)
  | other (message : String)

def validationErr (m : String) : PyExc := .psn ⟨.validation, m⟩

/-- The body of an outbound response, kept structured: a pre-serialised
JSON string (`model_dump_json()`), the empty string a falsy dict produces,
a `json.dumps`ed dict, or an `ErrorResponse` rendering (whose `details` is
always `None` and whose `timestamp` is the construction time). -/
inductive RespBody where
  | raw (s : String)
  | empty
  | jsonDict (fields : List (String × Json))
  | errorJson (error message : String) (timestamp : Nat)

/-- An outbound API-Gateway response. -/
structure Response where
  statusCode : Nat
  headers : Store String
  body : RespBody

/-- The header block both `create_success_response` and
`create_error_response` attach, in both services. -/
def stdHeaders : Store String :=
  [("Content-Type", "application/json"),
   ("Access-Control-Allow-Origin", "*")]

/-- Argument of `create_success_response`: `str | dict`. -/
inductive SuccessData where
  | str (s : String)
  | dict (fields : List (String × Json))

/-- Model of `create_success_response` of the player handler: a dict body is dumped
unless falsy (empty), in which case the body is the empty string. -/
def player_create_success_response (status : Nat) (data : SuccessData) : Response :=
  { statusCode := status
    headers := stdHeaders
    body := match data with
      | .str s => .raw s
      | .dict d => if d.isEmpty then .empty else .jsonDict d }

/-- Model of `create_success_response` of the IDP handler (no falsy-dict check). -/
def idp_create_success_response (status : Nat) (data : SuccessData) : Response :=
  { statusCode := status
    headers := stdHeaders
    body := match data with
      | .str s => .raw s
      | .dict d => .jsonDict d }

/-- Model of `create_error_response` (identical in both handlers): an
`ErrorResponse(error=error_type, message=message)` body. -/
def create_error_response (status : Nat) (error_type message : String)
    (now : Nat) : Response :=
  { statusCode := status
    headers := stdHeaders
    body := .errorJson error_type message now }

/-- The `try/except` ladder of both `lambda_handler`s:
`ValidationException` → `VALIDATION_ERROR`, any other
`PSNEmulatorException` → `SERVICE_ERROR` (each with the exception's status
code and message), any other exception → a fixed generic Internal 500. -/
def lambdaExceptChain {σ : Type} (st : σ) (now : Nat) :
    Except PyExc (Response × σ) → Response × σ
  | .ok r => r
  | .error (.psn e) =>
    match e.kind with
    | .validation => (create_error_response e.status_code "VALIDATION_ERROR" e.message now, st)
    | _ => (create_error_response e.status_code "SERVICE_ERROR" e.message now, st)
  | .error (.other _) =>
    (create_error_response 500 "INTERNAL_ERROR" "An unexpected error occurred" now, st)

/-- Whether `sub` occurs as a contiguous run inside the character list. -/
def charsContain (sub : List Char) : List Char → Bool
  | [] => sub.isEmpty
  | c :: tl => sub.isPrefixOf (c :: tl) || charsContain sub tl

/-- Model of `"/players/" in path` (Python substring containment). -/
def strContains (s sub : String) : Bool :=
  charsContain sub.toList s.toList

/-! ### Serialisers (pydantic `model_dump_json`) -/

def PlayerAccount.model_dump_json (p : PlayerAccount) : String :=
  "\x7b\"player_id\":\"" ++ p.player_id ++ "\",\"username\":\"" ++ p.username ++
  "\",\"email\":\"" ++ p.email ++ "\",\"display_name\":\"" ++ p.display_name ++
  "\",\"status\":\"" ++ p.status.toStr ++ "\",\"level\":" ++ toString p.level ++
  ",\"experience_points\":" ++ toString p.experience_points ++
  ",\"created_at\":" ++ toString p.created_at ++
  ",\"updated_at\":" ++ toString p.updated_at ++ "\x7d"

def PlayerStats.model_dump_json (s : PlayerStats) : String :=
  "\x7b\"player_id\":\"" ++ s.player_id ++
  "\",\"total_games\":" ++ toString s.total_games ++
  ",\"wins\":" ++ toString s.wins ++ ",\"losses\":" ++ toString s.losses ++
  ",\"win_rate\":" ++ toString s.win_rate ++
  ",\"total_playtime_hours\":" ++ toString s.total_playtime_hours ++ "\x7d"

def TokenResponse.model_dump_json (t : TokenResponse) : String :=
  "\x7b\"access_token\":\"" ++ t.access_token ++
  "\",\"token_type\":\"" ++ t.token_type ++
  "\",\"expires_in\":" ++ toString t.expires_in ++
  ",\"refresh_token\":" ++
  (match t.refresh_token with
   | some r => "\"" ++ r ++ "\""
   | none => "null") ++
  ",\"issued_at\":" ++ toString t.issued_at ++ "\x7d"

def UserInfo.model_dump_json (u : UserInfo) : String :=
  "\x7b\"user_id\":\"" ++ u.user_id ++ "\",\"username\":\"" ++ u.username ++
  "\",\"email\":\"" ++ u.email ++
  "\",\"is_active\":" ++ (if u.is_active then "true" else "false") ++
  ",\"created_at\":" ++ toString u.created_at ++ "\x7d"

/-- Model of `json.loads(p.model_dump_json())`, kept structural: the dict the list
route embeds for one player. -/
def PlayerAccount.toJson (p : PlayerAccount) : Json :=
  .obj [("player_id", .str p.player_id), ("username", .str p.username),
        ("email", .str p.email), ("display_name", .str p.display_name),
        ("status", .str p.status.toStr), ("level", .num p.level),
        ("experience_points", .num p.experience_points),
        ("created_at", .num p.created_at), ("updated_at", .num p.updated_at)]

/-! ### Pydantic request models and their validation -/

/-- Model of `CreatePlayerRequest`. -/
structure CreatePlayerRequest where
  username : String
  email : String
  display_name : Option String

/-- Model of `CreatePlayerRequest(**body)`: a non-dict body raises `TypeError`
(caught only by the generic handler), a field violation raises a
`ValidationError` that `handle_create_player` converts to a
`ValidationException`. Constraints are those of `models.py`: username
3–30 chars, a valid email, display_name at most 50 chars. -/
def parseCreatePlayerRequest (isEmail : String → Bool) (j : Json) :
    Except PyExc CreatePlayerRequest :=
  match j with
  | .obj fields =>
    match Store.lookup "username" fields with
    | some (.str u) =>
      if 3 ≤ u.length ∧ u.length ≤ 30 then
        match Store.lookup "email" fields with
        | some (.str e) =>
          if isEmail e then
            match Store.lookup "display_name" fields with
            | some (.str d) =>
              if d.length ≤ 50 then .ok ⟨u, e, some d⟩
              else .error (validationErr "display_name: string too long")
            | some .null => .ok ⟨u, e, none⟩
            | none => .ok ⟨u, e, none⟩
            | some _ => .error (validationErr "display_name: string expected")
          else .error (validationErr "email: value is not a valid email address")
        | some _ => .error (validationErr "email: string expected")
        | none => .error (validationErr "email: field required")
      else .error (validationErr "username: length out of range")
    | some _ => .error (validationErr "username: string expected")
    | none => .error (validationErr "username: field required")
  | _ => .error (.other "TypeError: argument after ** must be a mapping")

/-- Model of `PlayerStatus(value)` from its string value. -/
def parsePlayerStatus (s : String) : Option PlayerStatus :=
  if s = "active" then some .active
  else if s = "suspended" then some .suspended
  else if s = "banned" then some .banned
  else if s = "inactive" then some .inactive
  else none

/-- Model of `UpdatePlayerRequest(**body)`: every field optional (absent or JSON
null → `None`), same per-field constraints as `models.py`. -/
def parseUpdatePlayerRequest (isEmail : String → Bool) (j : Json) :
    Except PyExc UpdatePlayerRequest :=
  match j with
  | .obj fields => do
    let dn ← match Store.lookup "display_name" fields with
      | none => pure none
      | some .null => pure none
      | some (.str d) =>
        if d.length ≤ 50 then pure (some d)
        else .error (validationErr "display_name: string too long")
      | some _ => .error (validationErr "display_name: string expected")
    let em ← match Store.lookup "email" fields with
      | none => pure none
      | some .null => pure none
      | some (.str e) =>
        if isEmail e then pure (some e)
        else .error (validationErr "email: value is not a valid email address")
      | some _ => .error (validationErr "email: string expected")
    let stt ← match Store.lookup "status" fields with
      | none => pure none
      | some .null => pure none
      | some (.str s) =>
        match parsePlayerStatus s with
        | some v => pure (some v)
        | none => .error (validationErr "status: invalid enumeration member")
      | some _ => .error (validationErr "status: invalid enumeration member")
    pure ⟨dn, em, stt⟩
  | _ => .error (.other "TypeError: argument after ** must be a mapping")

/-- Model of `AuthenticationRequest`. -/
structure AuthenticationRequest where
  username : String
  password : String

/-- Model of `AuthenticationRequest(**body)`: username 3–50 chars, password at least
8 chars, optional `grant_type` string (defaulting to `"password"`). -/
def parseAuthenticationRequest (j : Json) :
    Except PyExc AuthenticationRequest :=
  match j with
  | .obj fields =>
    match Store.lookup "username" fields with
    | some (.str u) =>
      if 3 ≤ u.length ∧ u.length ≤ 50 then
        match Store.lookup "password" fields with
        | some (.str p) =>
          if 8 ≤ p.length then
            match Store.lookup "grant_type" fields with
            | none => .ok ⟨u, p⟩
            | some (.str _) => .ok ⟨u, p⟩
            | some _ => .error (validationErr "grant_type: string expected")
          else .error (validationErr "password: string too short")
        | some _ => .error (validationErr "password: string expected")
        | none => .error (validationErr "password: field required")
      else .error (validationErr "username: length out of range")
    | some _ => .error (validationErr "username: string expected")
    | none => .error (validationErr "username: field required")
  | _ => .error (.other "TypeError: argument after ** must be a mapping")

/-! ### Player Account API router (`services/player_account_api/src/handler.py`) -/

def handle_create_player (isEmail : String → Bool) (body : Json)
    (st : PlayerState) (genHex : String) (now : Nat) :
    Except PyExc (Response × PlayerState) :=
  match parseCreatePlayerRequest isEmail body with
  | .error e => .error e
  | .ok req =>
    match PlayerAccountService.create_player st req.username req.email
        req.display_name genHex now with
    | .error e => .error (.psn e)
    | .ok (player, st') =>
      .ok (player_create_success_response 201 (.str player.model_dump_json), st')

def handle_get_player (st : PlayerState) (pid : String) :
    Except PyExc (Response × PlayerState) :=
  match PlayerAccountService.get_player st pid with
  | .error e => .error (.psn e)
  | .ok p => .ok (player_create_success_response 200 (.str p.model_dump_json), st)

def handle_update_player (isEmail : String → Bool) (st : PlayerState)
    (pid : String) (body : Json) (now : Nat) :
    Except PyExc (Response × PlayerState) :=
  match parseUpdatePlayerRequest isEmail body with
  | .error e => .error e
  | .ok req =>
    match PlayerAccountService.update_player st pid req now with
    | .error e => .error (.psn e)
    | .ok (p, st') =>
      .ok (player_create_success_response 200 (.str p.model_dump_json), st')

def handle_delete_player (st : PlayerState) (pid : String) :
    Except PyExc (Response × PlayerState) :=
  match PlayerAccountService.delete_player st pid with
  | .error e => .error (.psn e)
  | .ok st' => .ok (player_create_success_response 204 (.dict []), st')

def handle_list_players (st : PlayerState) : Response × PlayerState :=
  let players := PlayerAccountService.list_players st
  (player_create_success_response 200
    (.dict [("players", Json.arr (players.map PlayerAccount.toJson)),
            ("count", Json.num players.length)]), st)

def handle_get_player_stats (st : PlayerState) (pid : String) :
    Except PyExc (Response × PlayerState) :=
  match PlayerAccountService.get_player_stats st pid with
  | .error e => .error (.psn e)
  | .ok s => .ok (player_create_success_response 200 (.str s.model_dump_json), st)

/-- Body acquisition of the player handler:
`json.loads(event.get("body", "{}")) if event.get("body") else {}` — a
missing, null or empty body becomes `{}` without parsing; a present
non-empty string is parsed and a parse failure raises outside the taxonomy. -/
def playerBodyJson (parse : String → Option Json) (body : Option String) :
    Except PyExc Json :=
  match body with
  | none => .ok (.obj [])
  | some s =>
    if s = "" then .ok (.obj [])
    else
      match parse s with
      | none => .error (.other "json.decoder.JSONDecodeError")
      | some j => .ok j

/-- Model of `path_params.get("player_id")` followed by the `if not player_id`
truthiness guard. -/
def playerPathParamId (pathParams : Store String) : Option String :=
  match Store.lookup "player_id" pathParams with
  | none => none
  | some pid => if pid = "" then none else some pid

/-- The route ladder of the player `lambda_handler`, after the body has
been parsed, in source order (`/stats` before the generic `GET` route). -/
def player_route (isEmail : String → Bool) (st : PlayerState) (genHex : String)
    (now : Nat) (ev : Event) (body : Json) :
    Except PyExc (Response × PlayerState) :=
  let method := ev.httpMethod.getD ""
  let path := ev.path.getD ""
  let pathParams := ev.pathParameters.getD []
  if method == "POST" && path.endsWith "/players" then
    handle_create_player isEmail body st genHex now
  else if method == "GET" && path.endsWith "/players" then
    .ok (handle_list_players st)
  else if method == "GET" && strContains path "/players/" && path.endsWith "/stats" then
    match playerPathParamId pathParams with
    | none => .ok (create_error_response 400 "BAD_REQUEST" "player_id is required" now, st)
    | some pid => handle_get_player_stats st pid
  else if method == "GET" && strContains path "/players/" then
    match playerPathParamId pathParams with
    | none => .ok (create_error_response 400 "BAD_REQUEST" "player_id is required" now, st)
    | some pid => handle_get_player st pid
  else if method == "PUT" && strContains path "/players/" then
    match playerPathParamId pathParams with
    | none => .ok (create_error_response 400 "BAD_REQUEST" "player_id is required" now, st)
    | some pid => handle_update_player isEmail st pid body now
  else if method == "DELETE" && strContains path "/players/" then
    match playerPathParamId pathParams with
    | none => .ok (create_error_response 400 "BAD_REQUEST" "player_id is required" now, st)
    | some pid => handle_delete_player st pid
  else
    .ok (create_error_response 404 "NOT_FOUND"
      ("Endpoint not found: " ++ method ++ " " ++ path) now, st)

/-- Everything inside the player handler's `try` block. -/
def player_dispatch (parse : String → Option Json) (isEmail : String → Bool)
    (st : PlayerState) (genHex : String) (now : Nat) (ev : Event) :
    Except PyExc (Response × PlayerState) :=
  match playerBodyJson parse ev.body with
  | .error e => .error e
  | .ok body => player_route isEmail st genHex now ev body

/-- The player `lambda_handler`. -/
def player_lambda_handler (parse : String → Option Json)
    (isEmail : String → Bool) (st : PlayerState) (genHex : String) (now : Nat)
    (ev : Event) : Response × PlayerState :=
  lambdaExceptChain st now (player_dispatch parse isEmail st genHex now ev)

/-- Disjunction of the six route guards of the player handler; an event is
unrouted exactly when this is `false`. -/
def playerRouteMatches (method path : String) : Bool :=
  (method == "POST" && path.endsWith "/players") ||
  (method == "GET" && path.endsWith "/players") ||
  (method == "GET" && strContains path "/players/" && path.endsWith "/stats") ||
  (method == "GET" && strContains path "/players/") ||
  (method == "PUT" && strContains path "/players/") ||
  (method == "DELETE" && strContains path "/players/")

/-! ### IDP API router (`services/idp_api/src/handler.py`) -/

def handle_authentication (body : Json) (st : IDPState)
    (tok1 tok2 : String) (now : Nat) : Except PyExc (Response × IDPState) :=
  match parseAuthenticationRequest body with
  | .error e => .error e
  | .ok req =>
    match IDPService.authenticate st req.username req.password tok1 tok2 now with
    | .error e => .error (.psn e)
    | .ok (tr, st') =>
      .ok (idp_create_success_response 200 (.str tr.model_dump_json), st')

def handle_userinfo (ev : Event) (st : IDPState) (now : Nat) :
    Except PyExc (Response × IDPState) :=
  let headers := ev.headers.getD []
  let auth_header := (Store.lookup "Authorization" headers).getD ""
  if auth_header.startsWith "Bearer " then
    let token := auth_header.replace "Bearer " ""
    match IDPService.get_user_info st token now with
    | .error e => .error (.psn e)
    | .ok ui => .ok (idp_create_success_response 200 (.str ui.model_dump_json), st)
  else .error (validationErr "Invalid or missing Authorization header")

/-- Model of `handle_token_refresh`: `body.get("refresh_token")` (an `AttributeError`
on a non-dict body), the `if not refresh_token` truthiness guard, then the
service call. A truthy non-string value is a hashable dict-lookup miss for
`bool`/`int` (no string key equals it) and a `TypeError` for `list`/`dict`. -/
def handle_token_refresh (body : Json) (st : IDPState) (newTok : String)
    (now : Nat) : Except PyExc (Response × IDPState) :=
  match body with
  | .obj fields =>
    match Store.lookup "refresh_token" fields with
    | some (.str s) =>
      if s = "" then .error (validationErr "refresh_token is required")
      else
        match IDPService.refresh_token st s newTok now with
        | .error e => .error (.psn e)
        | .ok (tr, st') =>
          .ok (idp_create_success_response 200 (.str tr.model_dump_json), st')
    | some v =>
      if v.truthy then
        match v with
        | .bool _ => .error (.psn ⟨.authentication, "Invalid refresh token"⟩)
        | .num _ => .error (.psn ⟨.authentication, "Invalid refresh token"⟩)
        | _ => .error (.other "TypeError: unhashable type")
      else .error (validationErr "refresh_token is required")
    | none => .error (validationErr "refresh_token is required")
  | _ => .error (.other "AttributeError: object has no attribute get")

/-- Body acquisition of the IDP handler:
`body_str = event.get("body", "{}") or "{}"` — absent, null and empty
bodies all become the literal string of an empty object, which is then
parsed like any other body. -/
def idpBodyStr (body : Option String) : String :=
  match body with
  | none => "\x7b\x7d"
  | some s => if s = "" then "\x7b\x7d" else s

/-- The route ladder of the IDP `lambda_handler`. -/
def idp_route (st : IDPState) (tok1 tok2 : String) (now : Nat) (ev : Event)
    (body : Json) : Except PyExc (Response × IDPState) :=
  let method := ev.httpMethod.getD ""
  let path := ev.path.getD ""
  if method == "POST" && path.endsWith "/auth/token" then
    handle_authentication body st tok1 tok2 now
  else if method == "GET" && path.endsWith "/auth/userinfo" then
    handle_userinfo ev st now
  else if method == "POST" && path.endsWith "/auth/refresh" then
    handle_token_refresh body st tok1 now
  else
    .ok (create_error_response 404 "NOT_FOUND"
      ("Endpoint not found: " ++ method ++ " " ++ path) now, st)

/-- Everything inside the IDP handler's `try` block. -/
def idp_dispatch (parse : String → Option Json) (st : IDPState)
    (tok1 tok2 : String) (now : Nat) (ev : Event) :
    Except PyExc (Response × IDPState) :=
  match parse (idpBodyStr ev.body) with
  | none => .error (.other "json.decoder.JSONDecodeError")
  | some body => idp_route st tok1 tok2 now ev body

/-- The IDP `lambda_handler`. -/
def idp_lambda_handler (parse : String → Option Json) (st : IDPState)
    (tok1 tok2 : String) (now : Nat) (ev : Event) : Response × IDPState :=
  lambdaExceptChain st now (idp_dispatch parse st tok1 tok2 now ev)

/-- Disjunction of the three route guards of the IDP handler. -/
def idpRouteMatches (method path : String) : Bool :=
  (method == "POST" && path.endsWith "/auth/token") ||
  (method == "GET" && path.endsWith "/auth/userinfo") ||
  (method == "POST" && path.endsWith "/auth/refresh")

/-! ### Concrete states and inputs used by witnesses and counterexamples -/

/-- Shorthand for building concrete player records in concrete stores. -/
def mkPlayer (suffix u e : String) : PlayerAccount :=
  { player_id := "plr_" ++ suffix
    username := u
    email := e
    display_name := u
    status := .active
    level := 1
    experience_points := 0
    created_at := 0
    updated_at := 0 }

/-- Store for the C2 counterexample: the player holding the requested email
precedes the player holding the requested username. -/
def c2State : PlayerState :=
  { players := [("plr_b", mkPlayer "b" "bob" "shared@example.com"),
                ("plr_a", mkPlayer "a" "alice" "alice@example.com")]
    stats := [] }

/-- Token store for the C3 counterexample and witness: one access token. -/
def c3Tokens : Store TokenData :=
  [("tok", { user_id := "usr_001", username := "testuser",
             type := "access", expires_at := 100 })]

/-- Token store for the C5 witness: one live refresh token. -/
def c5Tokens : Store TokenData :=
  [("r", { user_id := "usr_001", username := "testuser",
           type := "refresh", expires_at := 1000 })]

/-- Concrete player and stores for the C6 witness. -/
def c6Player : PlayerAccount := mkPlayer "x" "zoe" "zoe@example.com"

def c6Updated : PlayerAccount := { c6Player with display_name := "Zed", updated_at := 42 }

def c6State : PlayerState := { players := [("plr_x", c6Player)], stats := [] }

def c6State2 : PlayerState := { players := [("plr_x", c6Updated)], stats := [] }

/-- A tiny concrete stand-in for `json.loads` exercising the abstract
`parse` parameter in witnesses: it parses exactly the empty-object literal
and fails on everything else, as `json.loads` does on malformed input. -/
def parse0 : String → Option Json :=
  fun s => if s = "\x7b\x7d" then some (.obj []) else none

/-- A concrete stand-in for the abstract `EmailStr` predicate. -/
def email0 : String → Bool :=
  fun s => strContains s "@"

/-- Concrete create-request body for the C9 witness. -/
def c9Body : Json :=
  .obj [("username", .str "alice"), ("email", .str "alice@example.com")]

/-- The player the C9 witness creation produces. -/
def c9Player : PlayerAccount :=
  { player_id := "plr_00"
    username := "alice"
    email := "alice@example.com"
    display_name := "alice"
    status := .active
    level := 1
    experience_points := 0
    created_at := 5
    updated_at := 5 }

/-- The zeroed stats record the C9 witness creation produces. -/
def c9Stats : PlayerStats :=
  { player_id := "plr_00"
    total_games := 0
    wins := 0
    losses := 0
    win_rate := 0
    total_playtime_hours := 0 }

def c9State : PlayerState :=
  { players := [("plr_00", c9Player)], stats := [("plr_00", c9Stats)] }

def c9CreateResp : Response :=
  player_create_success_response 201 (.str c9Player.model_dump_json)

def c9DeleteResp : Response :=
  player_create_success_response 204 (.dict [])

def c9GetResp : Response :=
  player_create_success_response 200 (.str c9Player.model_dump_json)

def c9StatsResp : Response :=
  player_create_success_response 200 (.str c9Stats.model_dump_json)

/-! ## Theorems -/

theorem Store.lookup_insert_self {α : Type} (k : String) (v : α) (l : Store α) :
    Store.lookup k (Store.insert k v l) = some v := by
  induction l with
  | nil => simp [Store.insert, Store.lookup]
  | cons hd tl ih =>
    obtain ⟨k', v'⟩ := hd
    by_cases h : k' = k
    · simp [Store.insert, Store.lookup, h]
    · simp [Store.insert, Store.lookup, h, ih]

theorem Store.lookup_insert_ne {α : Type} (q k : String) (v : α) (l : Store α)
    (h : q ≠ k) :
    Store.lookup q (Store.insert k v l) = Store.lookup q l := by
  have hk : ¬ k = q := fun hh => h hh.symm
  induction l with
  | nil => simp [Store.insert, Store.lookup, hk]
  | cons hd tl ih =>
    obtain ⟨k', v'⟩ := hd
    by_cases hkk : k' = k
    · subst hkk
      simp [Store.insert, Store.lookup, hk]
    · simp [Store.insert, Store.lookup, hkk, ih]

theorem Store.lookup_erase_self {α : Type} (k : String) (l : Store α) :
    Store.lookup k (Store.erase k l) = none := by
  induction l with
  | nil => simp [Store.erase, Store.lookup]
  | cons hd tl ih =>
    obtain ⟨k', v'⟩ := hd
    by_cases h : k' = k
    · simpa [Store.erase, h] using ih
    · simpa [Store.erase, Store.lookup, h] using ih

theorem Store.lookup_erase_ne {α : Type} (q k : String) (l : Store α) (h : q ≠ k) :
    Store.lookup q (Store.erase k l) = Store.lookup q l := by
  have hk : ¬ k = q := fun hh => h hh.symm
  induction l with
  | nil => simp [Store.erase, Store.lookup]
  | cons hd tl ih =>
    obtain ⟨k', v'⟩ := hd
    by_cases hkk : k' = k
    · subst hkk
      simpa [Store.erase, Store.lookup, hk] using ih
    · simp only [Store.erase, ne_eq, decide_not] at ih
      simp [Store.erase, Store.lookup, hkk, ne_eq, decide_not, ih]

theorem Store.length_insert_of_lookup_none {α : Type} (k : String) (v : α)
    (l : Store α) (h : Store.lookup k l = none) :
    (Store.insert k v l).length = l.length + 1 := by
  induction l with
  | nil => simp [Store.insert]
  | cons hd tl ih =>
    obtain ⟨k', v'⟩ := hd
    by_cases hk : k' = k
    · simp [Store.lookup, hk] at h
    · simp only [Store.lookup, if_neg hk] at h
      simp [Store.insert, hk, ih h]

theorem findCreateConflict_append (u e : String)
    (pre rest : List (String × PlayerAccount))
    (hpre : ∀ x ∈ pre, x.2.username ≠ u ∧ x.2.email ≠ e) :
    PlayerAccountService.findCreateConflict u e (pre ++ rest)
      = PlayerAccountService.findCreateConflict u e rest := by
  induction pre with
  | nil => rfl
  | cons hd tl ih =>
    obtain ⟨k, p⟩ := hd
    obtain ⟨hu, he⟩ := hpre (k, p) (by simp)
    simp only [List.cons_append, PlayerAccountService.findCreateConflict, hu, he,
      if_neg hu, if_neg he]
    exact ih (fun x hx => hpre x (List.mem_cons_of_mem _ hx))

theorem findCreateConflict_email_of_no_username (u e : String)
    (l : List (String × PlayerAccount))
    (hu : ∀ x ∈ l, x.2.username ≠ u)
    (he : ∃ x ∈ l, x.2.email = e) :
    PlayerAccountService.findCreateConflict u e l
      = some ⟨.conflict, emailExistsMsg e⟩ := by
  induction l with
  | nil => simp at he
  | cons hd tl ih =>
    obtain ⟨k, p⟩ := hd
    have hpu : p.username ≠ u := hu (k, p) (by simp)
    by_cases hpe : p.email = e
    · simp [PlayerAccountService.findCreateConflict, hpu, hpe]
    · have he' : ∃ x ∈ tl, x.2.email = e := by
        rcases he with ⟨x, hx, hxe⟩
        rcases List.mem_cons.mp hx with hx1 | hx2
        · exact absurd hxe (by simp [hx1, hpe])
        · exact ⟨x, hx2, hxe⟩
      simp only [PlayerAccountService.findCreateConflict, if_neg hpu, if_neg hpe]
      exact ih (fun x hx => hu x (List.mem_cons_of_mem _ hx)) he'

/-- C2 (amended): `create_player`'s duplicate scan walks the stored players
in insertion order and, at each player, tests the username before the email.
Hence the call fails Conflict naming the username exactly when the first
stored player matching either field matches the username (in particular when
one player matches both); an earlier stored player matching only the email
wins over a later player matching the username, producing the email message.
When no stored player has the username but some has the email, the call
fails Conflict naming the email. -/
theorem create_player_first_match_conflict
    (st : PlayerState) (u e : String) (d : Option String) (g : String) (now : Nat) :
    (∀ pre k q rest,
        st.players = pre ++ (k, q) :: rest →
        (∀ x ∈ pre, x.2.username ≠ u ∧ x.2.email ≠ e) →
        ((q.username = u →
            PlayerAccountService.create_player st u e d g now
              = .error ⟨.conflict, usernameExistsMsg u⟩) ∧
          (q.username ≠ u → q.email = e →
            PlayerAccountService.create_player st u e d g now
              = .error ⟨.conflict, emailExistsMsg e⟩)))
    ∧ ((∀ x ∈ st.players, x.2.username ≠ u) →
        (∃ x ∈ st.players, x.2.email = e) →
        PlayerAccountService.create_player st u e d g now
          = .error ⟨.conflict, emailExistsMsg e⟩) := by
  constructor
  · intro pre k q rest hsplit hpre
    constructor
    · intro hq
      have : PlayerAccountService.findCreateConflict u e st.players
          = some ⟨.conflict, usernameExistsMsg u⟩ := by
        rw [hsplit, findCreateConflict_append u e pre _ hpre]
        simp [PlayerAccountService.findCreateConflict, hq]
      simp [PlayerAccountService.create_player, this]
    · intro hqu hqe
      have : PlayerAccountService.findCreateConflict u e st.players
          = some ⟨.conflict, emailExistsMsg e⟩ := by
        rw [hsplit, findCreateConflict_append u e pre _ hpre]
        simp [PlayerAccountService.findCreateConflict, hqu, hqe]
      simp [PlayerAccountService.create_player, this]
  · intro hu he
    have := findCreateConflict_email_of_no_username u e st.players hu he
    simp [PlayerAccountService.create_player, this]

/-- Witness for C2 (amended) at concrete stores: a store whose first player
matches the requested username yields the username message, and the
counterexample store with no username match but an email match yields the
email message. -/
theorem create_player_first_match_conflict_witness :
    PlayerAccountService.create_player
        ⟨[("plr_a", mkPlayer "a" "alice" "alice@example.com")], []⟩
        "alice" "fresh@example.com" none "00" 7
      = .error ⟨.conflict, usernameExistsMsg "alice"⟩ ∧
    PlayerAccountService.create_player c2State "carol" "shared@example.com" none "00" 7
      = .error ⟨.conflict, emailExistsMsg "shared@example.com"⟩ := by
  constructor
  · exact ((create_player_first_match_conflict
      ⟨[("plr_a", mkPlayer "a" "alice" "alice@example.com")], []⟩
      "alice" "fresh@example.com" none "00" 7).1
      [] "plr_a" (mkPlayer "a" "alice" "alice@example.com") []
      rfl (by simp)).1 rfl
  · exact (create_player_first_match_conflict c2State
      "carol" "shared@example.com" none "00" 7).2
      (by decide) (by decide)

/-- Counterexample to C2 as stated: in `c2State` the requested username
`"alice"` is already stored, yet the call fails naming the email, because
the stored player holding the email precedes the one holding the username
in the scan; the produced message differs from the username message the
claim requires. -/
theorem create_player_conflict_order_counterexample :
    ((c2State.players.map (fun x => x.2.username)).contains "alice" = true) ∧
    PlayerAccountService.create_player c2State "alice" "shared@example.com" none "00" 0
      = .error ⟨.conflict, emailExistsMsg "shared@example.com"⟩ ∧
    emailExistsMsg "shared@example.com" ≠ usernameExistsMsg "alice" := by
  refine ⟨by decide, rfl, by decide⟩

theorem lookup_mapPasswords (f : String → String) (users : Store UserRecord)
    (k : String) :
    Store.lookup k (users.map (fun kv => (kv.1, { kv.2 with password := f kv.1 })))
      = (Store.lookup k users).map (fun u => { u with password := f k }) := by
  induction users with
  | nil => rfl
  | cons hd tl ih =>
    obtain ⟨k', u⟩ := hd
    by_cases h : k' = k
    · subst h
      simp [Store.lookup]
    · simp [Store.lookup, h, ih]

/-- C3 (amended): `get_user_info` raises an Authentication error exactly
when the token is unknown, its kind is not `access`, or its expiry is
STRICTLY before the current time (the source compares with `<`, so a token
whose expiry equals the current instant is still accepted); when none of
these hold and the token's username resolves in the user store — as it
does for every token the service mints — it returns the projection of the
stored user record onto `UserInfo`, a type with no password field, and the
whole function is invariant under arbitrary rewriting of every stored
password. -/
theorem get_user_info_characterization
    (st : IDPState) (token : String) (now : Nat) :
    ((∃ err, IDPService.get_user_info st token now = .error err ∧
        err.kind = .authentication) ↔
      (st.tokens.lookup token = none ∨
        ∃ td, st.tokens.lookup token = some td ∧
          (td.type ≠ "access" ∨ td.expires_at < now)))
    ∧ (∀ td u, st.tokens.lookup token = some td → td.type = "access" →
        ¬ td.expires_at < now → st.users.lookup td.username = some u →
        IDPService.get_user_info st token now
          = .ok ⟨u.user_id, u.username, u.email, u.is_active, u.created_at⟩)
    ∧ (∀ f, IDPService.get_user_info (mapPasswords f st) token now
        = IDPService.get_user_info st token now) := by
  refine ⟨?_, ?_, ?_⟩
  · cases hl : st.tokens.lookup token with
    | none =>
      constructor
      · intro _
        exact Or.inl rfl
      · intro _
        exact ⟨⟨.authentication, "Invalid or expired token"⟩,
          by simp [IDPService.get_user_info, hl], rfl⟩
    | some td =>
      by_cases ht : td.type = "access"
      · by_cases he : td.expires_at < now
        · constructor
          · intro _
            exact Or.inr ⟨td, rfl, Or.inr he⟩
          · intro _
            exact ⟨⟨.authentication, "Token has expired"⟩,
              by simp [IDPService.get_user_info, hl, ht, he], rfl⟩
        · constructor
          · rintro ⟨err, herr, hkind⟩
            cases hu : st.users.lookup td.username with
            | none =>
              simp [IDPService.get_user_info, hl, ht, he, hu] at herr
              rw [← herr] at hkind
              exact absurd hkind (by decide)
            | some u =>
              simp [IDPService.get_user_info, hl, ht, he, hu] at herr
          · rintro (h1 | ⟨td', htd', h2 | h3⟩)
            · exact absurd h1 (by simp)
            · cases htd'
              exact absurd ht h2
            · cases htd'
              exact absurd h3 he
      · constructor
        · intro _
          exact Or.inr ⟨td, rfl, Or.inl ht⟩
        · intro _
          exact ⟨⟨.authentication, "Invalid token type"⟩,
            by simp [IDPService.get_user_info, hl, ht], rfl⟩
  · intro td u h1 h2 h3 h4
    simp [IDPService.get_user_info, h1, h2, h3, h4]
  · intro f
    cases hl : st.tokens.lookup token with
    | none => simp [IDPService.get_user_info, mapPasswords, hl]
    | some td =>
      cases hu : st.users.lookup td.username with
      | none =>
        simp [IDPService.get_user_info, mapPasswords, hl,
          lookup_mapPasswords, hu]
      | some u =>
        simp [IDPService.get_user_info, mapPasswords, hl,
          lookup_mapPasswords, hu]

/-- Witness for C3 (amended): a live access token at time 50 resolves to
the `testuser` projection. -/
theorem get_user_info_characterization_witness :
    IDPService.get_user_info ⟨initialUsers, c3Tokens⟩ "tok" 50
      = .ok ⟨"usr_001", "testuser", "testuser@example.com", true, 0⟩ :=
  (get_user_info_characterization ⟨initialUsers, c3Tokens⟩ "tok" 50).2.1
    { user_id := "usr_001", username := "testuser",
      type := "access", expires_at := 100 }
    { user_id := "usr_001", username := "testuser", password := "password123",
      email := "testuser@example.com", is_active := true, created_at := 0 }
    rfl rfl (by decide) rfl

theorem statsInv_step (st : PlayerState) (op : PlayerOp) (h : StatsInv st) :
    StatsInv (st.step op) := by
  cases op with
  | createOp u e d g now =>
    cases hc : PlayerAccountService.findCreateConflict u e st.players with
    | some err =>
      simpa [PlayerState.step, PlayerAccountService.create_player, hc] using h
    | none =>
      intro pid
      simp only [PlayerState.step, PlayerAccountService.create_player, hc]
      by_cases hp : pid = "plr_" ++ g
      · subst hp
        simp [Store.lookup_insert_self]
      · rw [Store.lookup_insert_ne _ _ _ _ hp, Store.lookup_insert_ne _ _ _ _ hp]
        exact h pid
  | updateOp pid req now =>
    cases hl : Store.lookup pid st.players with
    | none =>
      simpa [PlayerState.step, PlayerAccountService.update_player, hl] using h
    | some player =>
      cases hcf : PlayerAccountService.updateEmailConflict st.players pid req.email with
      | some err =>
        simpa [PlayerState.step, PlayerAccountService.update_player, hl, hcf] using h
      | none =>
        intro q
        simp only [PlayerState.step, PlayerAccountService.update_player, hl, hcf]
        by_cases hq : q = pid
        · subst hq
          simp only [Store.lookup_insert_self, Option.isSome_some, true_iff]
          exact (h q).mp (by simp [hl])
        · rw [Store.lookup_insert_ne _ _ _ _ hq]
          exact h q
  | deleteOp pid =>
    cases hl : Store.lookup pid st.players with
    | none =>
      simpa [PlayerState.step, PlayerAccountService.delete_player, hl] using h
    | some player =>
      have hs : (Store.lookup pid st.stats).isSome = true :=
        (h pid).mp (by simp [hl])
      intro q
      simp only [PlayerState.step, PlayerAccountService.delete_player, hl, hs,
        if_true]
      by_cases hq : q = pid
      · subst hq
        simp [Store.lookup_erase_self]
      · rw [Store.lookup_erase_ne _ _ _ hq, Store.lookup_erase_ne _ _ _ hq]
        exact h q
  | getOp pid => exact h
  | listOp => exact h
  | statsOp pid => exact h

/-- C4: in every state reachable from the empty stores by any sequence of
`create_player`, `get_player`, `update_player`, `delete_player`,
`list_players` and `get_player_stats` calls, a `player_id` keys the players
dict exactly when it keys the stats dict: creation inserts both together,
deletion removes both together, and no call leaves one side without the
other. -/
theorem player_stats_atomicity (ops : List PlayerOp) (pid : String) :
    ((PlayerState.run emptyPlayerState ops).players.lookup pid).isSome
      ↔ ((PlayerState.run emptyPlayerState ops).stats.lookup pid).isSome := by
  have hrun : ∀ st, StatsInv st → StatsInv (PlayerState.run st ops) := by
    induction ops with
    | nil => exact fun st h => h
    | cons op rest ih => exact fun st h => ih _ (statsInv_step st op h)
  exact hrun emptyPlayerState (fun q => by simp [emptyPlayerState, Store.lookup]) pid

/-- C5: a successful `refresh_token` call on a valid refresh token adds
exactly one entry to the token store — an access token bound to the same
`user_id` and `username` with expiry `now + 3600` — returns it with
`expires_in = 3600` and no new refresh token, leaves every pre-existing
token entry unchanged (in particular the refresh token itself keeps its
original record, unrotated), and leaves the user store unchanged. The
freshly generated token is assumed new, as `secrets.token_urlsafe(32)`
guarantees up to negligible collision probability. -/
theorem refresh_token_frame
    (st : IDPState) (r newTok : String) (td : TokenData) (now : Nat)
    (hr : st.tokens.lookup r = some td)
    (htype : td.type = "refresh")
    (hexp : ¬ td.expires_at < now)
    (hfresh : st.tokens.lookup newTok = none) :
    IDPService.refresh_token st r newTok now
      = .ok ({ access_token := newTok, token_type := "Bearer", expires_in := 3600,
               refresh_token := none, issued_at := now },
             { users := st.users,
               tokens := st.tokens.insert newTok
                 ⟨td.user_id, td.username, "access", now + 3600⟩ })
    ∧ (st.tokens.insert newTok
        ⟨td.user_id, td.username, "access", now + 3600⟩).length
        = st.tokens.length + 1
    ∧ Store.lookup newTok
        (st.tokens.insert newTok ⟨td.user_id, td.username, "access", now + 3600⟩)
        = some ⟨td.user_id, td.username, "access", now + 3600⟩
    ∧ (∀ t, t ≠ newTok →
        Store.lookup t
          (st.tokens.insert newTok ⟨td.user_id, td.username, "access", now + 3600⟩)
          = Store.lookup t st.tokens)
    ∧ Store.lookup r
        (st.tokens.insert newTok ⟨td.user_id, td.username, "access", now + 3600⟩)
        = some td := by
  have hrn : r ≠ newTok := by
    intro hEq
    rw [hEq, hfresh] at hr
    exact absurd hr (by simp)
  refine ⟨?_, ?_, ?_, ?_, ?_⟩
  · simp [IDPService.refresh_token, hr, htype, hexp]
  · exact Store.length_insert_of_lookup_none _ _ _ hfresh
  · exact Store.lookup_insert_self _ _ _
  · exact fun t ht => Store.lookup_insert_ne _ _ _ _ ht
  · rw [Store.lookup_insert_ne _ _ _ _ hrn]
    exact hr

/-- Witness for C5: refreshing the concrete live refresh token `"r"` at
time 500 with fresh token `"n"` mints the expected access token, grows the
store by one, and leaves `"r"` untouched. -/
theorem refresh_token_frame_witness :
    IDPService.refresh_token ⟨initialUsers, c5Tokens⟩ "r" "n" 500
      = .ok ({ access_token := "n", token_type := "Bearer", expires_in := 3600,
               refresh_token := none, issued_at := 500 },
             { users := initialUsers,
               tokens := c5Tokens.insert "n"
                 ⟨"usr_001", "testuser", "access", 500 + 3600⟩ })
    ∧ (c5Tokens.insert "n" ⟨"usr_001", "testuser", "access", 500 + 3600⟩).length
        = c5Tokens.length + 1
    ∧ Store.lookup "r" (c5Tokens.insert "n" ⟨"usr_001", "testuser", "access", 500 + 3600⟩)
        = some ⟨"usr_001", "testuser", "refresh", 1000⟩ := by
  have h := refresh_token_frame ⟨initialUsers, c5Tokens⟩ "r" "n"
    ⟨"usr_001", "testuser", "refresh", 1000⟩ 500 rfl rfl (by decide) rfl
  exact ⟨h.1, h.2.1, h.2.2.2.2⟩

/-- C6: a successful `update_player` applies exactly the fields present in
the patch — each absent field of the result equals the stored value, each
present field equals the patch value — always sets `updated_at` to the
current time, and never touches `player_id`, `username`, `level`,
`experience_points`, `created_at` or the stats store; in particular a patch
carrying only `display_name` always succeeds on an existing player and
changes nothing but `display_name` and `updated_at`. -/
theorem update_player_partial_patch
    (st : PlayerState) (pid : String) (p : PlayerAccount)
    (req : UpdatePlayerRequest) (now : Nat) (p' : PlayerAccount) (st' : PlayerState)
    (hp : st.players.lookup pid = some p)
    (hok : PlayerAccountService.update_player st pid req now = .ok (p', st')) :
    (p'.player_id = p.player_id ∧ p'.username = p.username ∧
      p'.level = p.level ∧ p'.experience_points = p.experience_points ∧
      p'.created_at = p.created_at ∧
      p'.display_name = req.display_name.getD p.display_name ∧
      p'.email = req.email.getD p.email ∧
      p'.status = req.status.getD p.status ∧
      p'.updated_at = now ∧
      st'.players = st.players.insert pid p' ∧ st'.stats = st.stats)
    ∧ (∀ d, PlayerAccountService.update_player st pid ⟨some d, none, none⟩ now
        = .ok ({ p with display_name := d, updated_at := now },
               { players := st.players.insert pid
                   { p with display_name := d, updated_at := now }
                 stats := st.stats })) := by
  constructor
  · simp only [PlayerAccountService.update_player, hp] at hok
    cases hcf : PlayerAccountService.updateEmailConflict st.players pid req.email with
    | some err =>
      rw [hcf] at hok
      exact absurd hok (by simp)
    | none =>
      rw [hcf] at hok
      injection hok with hok2
      rw [Prod.ext_iff] at hok2
      obtain ⟨h1, h2⟩ := hok2
      subst h1
      subst h2
      rcases req with ⟨dn, em, stt⟩
      cases dn <;> cases em <;> cases stt <;> simp [Option.getD]
  · intro d
    simp [PlayerAccountService.update_player, hp,
      PlayerAccountService.updateEmailConflict]

/-- Witness for C6: patching only `display_name` on the concrete store
leaves email and status unchanged and stamps `updated_at` with the clock. -/
theorem update_player_partial_patch_witness :
    c6Updated.email = c6Player.email ∧ c6Updated.status = c6Player.status ∧
    c6Updated.updated_at = 42 := by
  obtain ⟨h1, h2⟩ := update_player_partial_patch c6State "plr_x" c6Player
    ⟨some "Zed", none, none⟩ 42 c6Updated c6State2 rfl rfl
  obtain ⟨hpid, hun, hlev, hxp, hcr, hdn, hem, hst, hup, _, _⟩ := h1
  exact ⟨hem, hst, hup⟩

/-- Counterexample to C3 as stated: a stored access token whose expiry
equals the current time (expiry ≤ now) does NOT raise an Authentication
error — the call succeeds, because the source tests `expires_at < now`,
not `≤`. -/
theorem get_user_info_expiry_boundary_counterexample :
    (100 : Nat) ≤ 100 ∧
    IDPService.get_user_info ⟨initialUsers, c3Tokens⟩ "tok" 100
      = .ok ⟨"usr_001", "testuser", "testuser@example.com", true, 0⟩ :=
  ⟨by decide, rfl⟩

/-- C7: whenever the code inside either handler's `try` block raises an
exception outside the `PSNEmulatorException` taxonomy — whatever its
message — the handler returns the fixed generic Internal 500 envelope,
whose message is exactly `"An unexpected error occurred"`; the raised
exception's own message does not influence the response (the right-hand
sides below do not mention it). -/
theorem internal_errors_masked
    (parseP : String → Option Json) (isEmail : String → Bool)
    (pst : PlayerState) (g : String) (nowP : Nat) (evP : Event) (msgP : String)
    (parseI : String → Option Json) (ist : IDPState) (t1 t2 : String)
    (nowI : Nat) (evI : Event) (msgI : String)
    (hP : player_dispatch parseP isEmail pst g nowP evP = .error (.other msgP))
    (hI : idp_dispatch parseI ist t1 t2 nowI evI = .error (.other msgI)) :
    player_lambda_handler parseP isEmail pst g nowP evP
      = (create_error_response 500 "INTERNAL_ERROR" "An unexpected error occurred" nowP, pst)
    ∧ idp_lambda_handler parseI ist t1 t2 nowI evI
      = (create_error_response 500 "INTERNAL_ERROR" "An unexpected error occurred" nowI, ist) := by
  constructor
  · simp [player_lambda_handler, hP, lambdaExceptChain]
  · simp [idp_lambda_handler, hI, lambdaExceptChain]

/-- Witness for C7: events with the unparsable body `"nope"` hit the
generic 500 on both services. -/
theorem internal_errors_masked_witness :
    player_lambda_handler parse0 email0 emptyPlayerState "00" 0
        { httpMethod := some "POST", path := some "/players", body := some "nope" }
      = (create_error_response 500 "INTERNAL_ERROR" "An unexpected error occurred" 0,
         emptyPlayerState)
    ∧ idp_lambda_handler parse0 ⟨initialUsers, []⟩ "t1" "t2" 0
        { httpMethod := some "POST", path := some "/auth/token", body := some "nope" }
      = (create_error_response 500 "INTERNAL_ERROR" "An unexpected error occurred" 0,
         ⟨initialUsers, []⟩) :=
  internal_errors_masked parse0 email0 emptyPlayerState "00" 0
    { httpMethod := some "POST", path := some "/players", body := some "nope" }
    "json.decoder.JSONDecodeError"
    parse0 ⟨initialUsers, []⟩ "t1" "t2" 0
    { httpMethod := some "POST", path := some "/auth/token", body := some "nope" }
    "json.decoder.JSONDecodeError" rfl rfl

/-- C8 (amended): for every inbound event whose body is absent, empty, or
parseable JSON, if the event's method and path match none of the fixed
routes the handler returns a 404 whose message names both the unmatched
method and the unmatched path. (The body proviso is forced: both handlers
parse the body inside the `try` block BEFORE routing, so an unroutable
event with a malformed body yields the generic 500 instead — see the
counterexample.) -/
theorem unmatched_route_404
    (parseP : String → Option Json) (isEmail : String → Bool)
    (pst : PlayerState) (g : String) (nowP : Nat) (evP : Event)
    (parseI : String → Option Json) (ist : IDPState) (t1 t2 : String)
    (nowI : Nat) (evI : Event)
    (hbodyP : ∀ s, evP.body = some s → s ≠ "" → (parseP s).isSome)
    (hrouteP : playerRouteMatches (evP.httpMethod.getD "") (evP.path.getD "") = false)
    (hbodyI : (parseI (idpBodyStr evI.body)).isSome)
    (hrouteI : idpRouteMatches (evI.httpMethod.getD "") (evI.path.getD "") = false) :
    player_lambda_handler parseP isEmail pst g nowP evP
      = (create_error_response 404 "NOT_FOUND"
          ("Endpoint not found: " ++ evP.httpMethod.getD "" ++ " " ++ evP.path.getD "")
          nowP, pst)
    ∧ idp_lambda_handler parseI ist t1 t2 nowI evI
      = (create_error_response 404 "NOT_FOUND"
          ("Endpoint not found: " ++ evI.httpMethod.getD "" ++ " " ++ evI.path.getD "")
          nowI, ist) := by
  constructor
  · have hbody : ∃ b, playerBodyJson parseP evP.body = .ok b := by
      cases hb : evP.body with
      | none => exact ⟨.obj [], rfl⟩
      | some s =>
        by_cases hs : s = ""
        · subst hs
          exact ⟨.obj [], by simp [playerBodyJson]⟩
        · obtain ⟨j, hj⟩ := Option.isSome_iff_exists.mp (hbodyP s hb hs)
          exact ⟨j, by simp [playerBodyJson, hs, hj]⟩
    obtain ⟨b, hb⟩ := hbody
    simp only [playerRouteMatches, Bool.or_eq_false_iff] at hrouteP
    obtain ⟨⟨⟨⟨⟨h1, h2⟩, h3⟩, h4⟩, h5⟩, h6⟩ := hrouteP
    simp [player_lambda_handler, player_dispatch, hb, player_route,
      h1, h2, h3, h4, h5, h6, lambdaExceptChain]
  · obtain ⟨j, hj⟩ := Option.isSome_iff_exists.mp hbodyI
    simp only [idpRouteMatches, Bool.or_eq_false_iff] at hrouteI
    obtain ⟨⟨h1, h2⟩, h3⟩ := hrouteI
    simp [idp_lambda_handler, idp_dispatch, hj, idp_route, h1, h2, h3,
      lambdaExceptChain]

/-- Witness for C8 (amended): `PATCH /players` (no body) on the player
service and `DELETE /auth/token` (no body) on the IDP service both 404,
naming method and path. -/
theorem unmatched_route_404_witness :
    player_lambda_handler parse0 email0 emptyPlayerState "00" 3
        { httpMethod := some "PATCH", path := some "/players" }
      = (create_error_response 404 "NOT_FOUND" "Endpoint not found: PATCH /players" 3,
         emptyPlayerState)
    ∧ idp_lambda_handler parse0 ⟨initialUsers, []⟩ "t1" "t2" 4
        { httpMethod := some "DELETE", path := some "/auth/token" }
      = (create_error_response 404 "NOT_FOUND" "Endpoint not found: DELETE /auth/token" 4,
         ⟨initialUsers, []⟩) := by
  have h := unmatched_route_404 parse0 email0 emptyPlayerState "00" 3
    { httpMethod := some "PATCH", path := some "/players" }
    parse0 ⟨initialUsers, []⟩ "t1" "t2" 4
    { httpMethod := some "DELETE", path := some "/auth/token" }
    (fun s hs _ => Option.noConfusion hs) rfl rfl rfl
  exact ⟨h.1, h.2⟩

/-- Counterexample to C8 as stated: the event `PATCH /nowhere` with the
malformed body `"\x7b"` matches no route of the player service, yet the
handler returns 500 (the body is parsed before routing and the parse
failure lands in the generic catch-all), not the 404 the claim requires. -/
theorem unmatched_route_404_counterexample :
    playerRouteMatches "PATCH" "/nowhere" = false ∧
    (player_lambda_handler parse0 email0 emptyPlayerState "00" 3
        { httpMethod := some "PATCH", path := some "/nowhere", body := some "\x7b" }).1.statusCode
      = 500 := by
  exact ⟨rfl, rfl⟩

theorem handle_create_player_ok (isEmail : String → Bool) (body : Json)
    (st : PlayerState) (g : String) (now : Nat) (r : Response) (st' : PlayerState)
    (h : handle_create_player isEmail body st g now = .ok (r, st')) :
    r.statusCode = 201 ∧ r.headers = stdHeaders := by
  unfold handle_create_player at h
  cases hp : parseCreatePlayerRequest isEmail body with
  | error e =>
    rw [hp] at h
    simp at h
  | ok req =>
    simp only [hp] at h
    cases hc : PlayerAccountService.create_player st req.username req.email
        req.display_name g now with
    | error e =>
      rw [hc] at h
      simp at h
    | ok pr =>
      obtain ⟨player, st2⟩ := pr
      rw [hc] at h
      injection h with h2
      rw [Prod.ext_iff] at h2
      obtain ⟨hr, _⟩ := h2
      subst hr
      exact ⟨rfl, rfl⟩

theorem handle_get_player_ok (st : PlayerState) (pid : String) (r : Response)
    (st' : PlayerState) (h : handle_get_player st pid = .ok (r, st')) :
    r.statusCode = 200 ∧ r.headers = stdHeaders := by
  unfold handle_get_player at h
  cases hc : PlayerAccountService.get_player st pid with
  | error e =>
    rw [hc] at h
    simp at h
  | ok p =>
    rw [hc] at h
    injection h with h2
    rw [Prod.ext_iff] at h2
    obtain ⟨hr, _⟩ := h2
    subst hr
    exact ⟨rfl, rfl⟩

theorem handle_update_player_ok (isEmail : String → Bool) (st : PlayerState)
    (pid : String) (body : Json) (now : Nat) (r : Response) (st' : PlayerState)
    (h : handle_update_player isEmail st pid body now = .ok (r, st')) :
    r.statusCode = 200 ∧ r.headers = stdHeaders := by
  unfold handle_update_player at h
  cases hp : parseUpdatePlayerRequest isEmail body with
  | error e =>
    rw [hp] at h
    simp at h
  | ok req =>
    simp only [hp] at h
    cases hc : PlayerAccountService.update_player st pid req now with
    | error e =>
      rw [hc] at h
      simp at h
    | ok pr =>
      obtain ⟨p, st2⟩ := pr
      rw [hc] at h
      injection h with h2
      rw [Prod.ext_iff] at h2
      obtain ⟨hr, _⟩ := h2
      subst hr
      exact ⟨rfl, rfl⟩

theorem handle_delete_player_ok (st : PlayerState) (pid : String) (r : Response)
    (st' : PlayerState) (h : handle_delete_player st pid = .ok (r, st')) :
    r.statusCode = 204 ∧ r.headers = stdHeaders ∧ r.body = .empty := by
  unfold handle_delete_player at h
  cases hc : PlayerAccountService.delete_player st pid with
  | error e =>
    rw [hc] at h
    simp at h
  | ok st2 =>
    rw [hc] at h
    injection h with h2
    rw [Prod.ext_iff] at h2
    obtain ⟨hr, _⟩ := h2
    subst hr
    exact ⟨rfl, rfl, rfl⟩

theorem handle_get_player_stats_ok (st : PlayerState) (pid : String)
    (r : Response) (st' : PlayerState)
    (h : handle_get_player_stats st pid = .ok (r, st')) :
    r.statusCode = 200 ∧ r.headers = stdHeaders := by
  unfold handle_get_player_stats at h
  cases hc : PlayerAccountService.get_player_stats st pid with
  | error e =>
    rw [hc] at h
    simp at h
  | ok s =>
    rw [hc] at h
    injection h with h2
    rw [Prod.ext_iff] at h2
    obtain ⟨hr, _⟩ := h2
    subst hr
    exact ⟨rfl, rfl⟩

theorem player_route_ok_headers (isEmail : String → Bool) (st : PlayerState)
    (g : String) (now : Nat) (ev : Event) (body : Json) (r : Response)
    (st' : PlayerState) (h : player_route isEmail st g now ev body = .ok (r, st')) :
    r.headers = stdHeaders := by
  simp only [player_route] at h
  repeat' split at h
  all_goals
    first
    | exact (handle_create_player_ok _ _ _ _ _ _ _ h).2
    | exact (handle_get_player_ok _ _ _ _ h).2
    | exact (handle_update_player_ok _ _ _ _ _ _ _ h).2
    | exact (handle_delete_player_ok _ _ _ _ h).2.1
    | exact (handle_get_player_stats_ok _ _ _ _ h).2
    | (injection h with h2
       rw [Prod.ext_iff] at h2
       obtain ⟨hr, hst⟩ := h2
       subst hr
       simp [handle_list_players, player_create_success_response,
         create_error_response])

theorem player_dispatch_ok_headers (parse : String → Option Json)
    (isEmail : String → Bool) (st : PlayerState) (g : String) (now : Nat)
    (ev : Event) (r : Response) (st' : PlayerState)
    (h : player_dispatch parse isEmail st g now ev = .ok (r, st')) :
    r.headers = stdHeaders := by
  unfold player_dispatch at h
  cases hb : playerBodyJson parse ev.body with
  | error e =>
    rw [hb] at h
    simp at h
  | ok body =>
    rw [hb] at h
    exact player_route_ok_headers _ _ _ _ _ _ _ _ h

theorem player_handler_headers (parse : String → Option Json)
    (isEmail : String → Bool) (st : PlayerState) (g : String) (now : Nat)
    (ev : Event) :
    (player_lambda_handler parse isEmail st g now ev).1.headers = stdHeaders := by
  unfold player_lambda_handler
  cases hd : player_dispatch parse isEmail st g now ev with
  | ok pr =>
    obtain ⟨r, st'⟩ := pr
    simpa [lambdaExceptChain] using
      player_dispatch_ok_headers _ _ _ _ _ _ _ _ hd
  | error e =>
    cases e with
    | psn ex =>
      obtain ⟨k, m⟩ := ex
      cases k <;> rfl
    | other m => rfl

/-- C9: every response the player-service router emits — success or error,
on any event, state, clock, parser or generator — carries exactly the
headers `Content-Type: application/json` and `Access-Control-Allow-Origin: *`;
a successful create returns status 201, a successful delete returns status
204 with an empty body, and the remaining successful routes (get, list,
stats, update) return status 200. -/
theorem player_envelope_and_status_codes :
    (∀ parse isEmail st g now ev,
      (player_lambda_handler parse isEmail st g now ev).1.headers = stdHeaders)
    ∧ (∀ isEmail body st g now r st',
        handle_create_player isEmail body st g now = .ok (r, st') →
        r.statusCode = 201)
    ∧ (∀ st pid r st', handle_delete_player st pid = .ok (r, st') →
        r.statusCode = 204 ∧ r.body = .empty)
    ∧ (∀ st pid r st', handle_get_player st pid = .ok (r, st') →
        r.statusCode = 200)
    ∧ (∀ st, (handle_list_players st).1.statusCode = 200)
    ∧ (∀ st pid r st', handle_get_player_stats st pid = .ok (r, st') →
        r.statusCode = 200)
    ∧ (∀ isEmail st pid body now r st',
        handle_update_player isEmail st pid body now = .ok (r, st') →
        r.statusCode = 200) := by
  refine ⟨player_handler_headers, ?_, ?_, ?_, ?_, ?_, ?_⟩
  · exact fun isEmail body st g now r st' h =>
      (handle_create_player_ok isEmail body st g now r st' h).1
  · exact fun st pid r st' h =>
      ⟨(handle_delete_player_ok st pid r st' h).1,
       (handle_delete_player_ok st pid r st' h).2.2⟩
  · exact fun st pid r st' h => (handle_get_player_ok st pid r st' h).1
  · exact fun st => rfl
  · exact fun st pid r st' h => (handle_get_player_stats_ok st pid r st' h).1
  · exact fun isEmail st pid body now r st' h =>
      (handle_update_player_ok isEmail st pid body now r st' h).1

/-- Witness for C9 at concrete calls on concrete stores: headers on an
arbitrary concrete event, 201 for a concrete successful create, 204/empty
for a concrete successful delete, 200 for concrete successful get and
stats calls. -/
theorem player_envelope_and_status_codes_witness :
    (player_lambda_handler parse0 email0 c9State "01" 6
        { httpMethod := some "GET", path := some "/v1/players" }).1.headers = stdHeaders
    ∧ c9CreateResp.statusCode = 201
    ∧ (c9DeleteResp.statusCode = 204 ∧ c9DeleteResp.body = .empty)
    ∧ c9GetResp.statusCode = 200
    ∧ c9StatsResp.statusCode = 200 := by
  have h := player_envelope_and_status_codes
  refine ⟨h.1 parse0 email0 c9State "01" 6 _, ?_, ?_, ?_, ?_⟩
  · exact h.2.1 email0 c9Body emptyPlayerState "00" 5 c9CreateResp c9State rfl
  · exact h.2.2.1 c9State "plr_00" c9DeleteResp emptyPlayerState rfl
  · exact h.2.2.2.1 c9State "plr_00" c9GetResp c9State rfl
  · exact h.2.2.2.2.2.1 c9State "plr_00" c9StatsResp c9State rfl

/-- C10: on both services the JSON parse of the body happens inside the
`try` block BEFORE routing, so an event carrying a present, non-empty body
that is not valid JSON is answered with the generic Internal 500 envelope
(hence not a 400 Validation error) regardless of method and path, while a
missing or null body is replaced by an empty JSON object and dispatched to
the route ladder normally. -/
theorem malformed_body_is_internal_error :
    (∀ (parse : String → Option Json) isEmail st g now (ev : Event) s,
      ev.body = some s → s ≠ "" → parse s = none →
      player_lambda_handler parse isEmail st g now ev
        = (create_error_response 500 "INTERNAL_ERROR" "An unexpected error occurred" now, st))
    ∧ (∀ (parse : String → Option Json) isEmail st g now (ev : Event),
        ev.body = none →
        player_dispatch parse isEmail st g now ev
          = player_route isEmail st g now ev (.obj []))
    ∧ (∀ (parse : String → Option Json) st t1 t2 now (ev : Event) s,
        ev.body = some s → s ≠ "" → parse s = none →
        idp_lambda_handler parse st t1 t2 now ev
          = (create_error_response 500 "INTERNAL_ERROR" "An unexpected error occurred" now, st))
    ∧ (∀ (parse : String → Option Json) st t1 t2 now (ev : Event),
        ev.body = none → parse "\x7b\x7d" = some (.obj []) →
        idp_dispatch parse st t1 t2 now ev
          = idp_route st t1 t2 now ev (.obj [])) := by
  refine ⟨?_, ?_, ?_, ?_⟩
  · intro parse isEmail st g now ev s hs hne hparse
    simp [player_lambda_handler, player_dispatch, playerBodyJson, hs, hne,
      hparse, lambdaExceptChain]
  · intro parse isEmail st g now ev hs
    simp [player_dispatch, playerBodyJson, hs]
  · intro parse st t1 t2 now ev s hs hne hparse
    simp [idp_lambda_handler, idp_dispatch, idpBodyStr, hs, hne, hparse,
      lambdaExceptChain]
  · intro parse st t1 t2 now ev hs hp
    simp [idp_dispatch, idpBodyStr, hs, hp]

/-- Witness for C10: the malformed body `"\x7b"` yields the generic 500 on
both services, and bodiless events dispatch on the empty object. -/
theorem malformed_body_is_internal_error_witness :
    player_lambda_handler parse0 email0 c9State "00" 9
        { httpMethod := some "POST", path := some "/players", body := some "\x7b" }
      = (create_error_response 500 "INTERNAL_ERROR" "An unexpected error occurred" 9, c9State)
    ∧ player_dispatch parse0 email0 c9State "00" 9
        { httpMethod := some "GET", path := some "/players" }
      = player_route email0 c9State "00" 9
          { httpMethod := some "GET", path := some "/players" } (.obj [])
    ∧ idp_lambda_handler parse0 ⟨initialUsers, []⟩ "t1" "t2" 9
        { httpMethod := some "POST", path := some "/auth/refresh", body := some "\x7b" }
      = (create_error_response 500 "INTERNAL_ERROR" "An unexpected error occurred" 9,
         ⟨initialUsers, []⟩)
    ∧ idp_dispatch parse0 ⟨initialUsers, []⟩ "t1" "t2" 9
        { httpMethod := some "GET", path := some "/auth/userinfo" }
      = idp_route ⟨initialUsers, []⟩ "t1" "t2" 9
          { httpMethod := some "GET", path := some "/auth/userinfo" } (.obj []) := by
  have h := malformed_body_is_internal_error
  refine ⟨?_, ?_, ?_, ?_⟩
  · exact h.1 parse0 email0 c9State "00" 9
      { httpMethod := some "POST", path := some "/players", body := some "\x7b" }
      "\x7b" rfl (by decide) rfl
  · exact h.2.1 parse0 email0 c9State "00" 9
      { httpMethod := some "GET", path := some "/players" } rfl
  · exact h.2.2.1 parse0 ⟨initialUsers, []⟩ "t1" "t2" 9
      { httpMethod := some "POST", path := some "/auth/refresh", body := some "\x7b" }
      "\x7b" rfl (by decide) rfl
  · exact h.2.2.2 parse0 ⟨initialUsers, []⟩ "t1" "t2" 9
      { httpMethod := some "GET", path := some "/auth/userinfo" } rfl rfl

/-- C1: against the stored user database, authenticating with an unknown
username and authenticating as `testuser` with any wrong password both
raise an `AuthenticationException` carrying the identical message
`"Invalid username or password"` and the identical status code 401, for
every candidate password, generated token pair and clock reading
(enumeration resistance). -/
theorem authenticate_enumeration_resistance
    (tokens : Store TokenData) (u p p2 a b a2 b2 : String) (now now2 : Nat)
    (hu : Store.lookup u initialUsers = none) (hp : p2 ≠ "password123") :
    IDPService.authenticate ⟨initialUsers, tokens⟩ u p a b now
        = .error ⟨.authentication, "Invalid username or password"⟩ ∧
      IDPService.authenticate ⟨initialUsers, tokens⟩ "testuser" p2 a2 b2 now2
        = .error ⟨.authentication, "Invalid username or password"⟩ ∧
      PSNExc.status_code ⟨.authentication, "Invalid username or password"⟩ = 401 := by
  refine ⟨?_, ?_, rfl⟩
  · simp [IDPService.authenticate, hu]
  · have hlook : Store.lookup "testuser" initialUsers
        = some { user_id := "usr_001", username := "testuser",
                 password := "password123", email := "testuser@example.com",
                 is_active := true, created_at := 0 } := rfl
    have hp2 : ¬ "password123" = p2 := fun h => hp h.symm
    simp [IDPService.authenticate, hlook, hp2]

/-- Witness for C1 at the concrete inputs `u = "ghost"`, `p2 = "hunter2!"`. -/
theorem authenticate_enumeration_resistance_witness :
    IDPService.authenticate ⟨initialUsers, []⟩ "ghost" "whatever" "a" "b" 10
        = .error ⟨.authentication, "Invalid username or password"⟩ ∧
      IDPService.authenticate ⟨initialUsers, []⟩ "testuser" "hunter2!" "a2" "b2" 11
        = .error ⟨.authentication, "Invalid username or password"⟩ ∧
      PSNExc.status_code ⟨.authentication, "Invalid username or password"⟩ = 401 :=
  authenticate_enumeration_resistance [] "ghost" "whatever" "hunter2!"
    "a" "b" "a2" "b2" 10 11 (by decide) (by decide)

end PSN
